import Mathlib

/-!
Verification of the Personal-Voice-Assistant backend.

The Python sources `backend/main.py` (contact-link lookup) and
`backend/api.py` (session registry, voice-agent wrapper, HTTP façade) are
shallowly embedded below.  Caller-supplied text is modelled as `List Char`;
Python's substring test `needle in hay` is `containsSub`, and `str.lower`
is `strLower` (the strings involved are basic-latin, where `Char.toLower`
agrees with Python's lowering).  The external voice-agent SDK is opaque to
this code, so its calls are modelled by an oracle (`SdkOracle`): each call
either returns a value or raises an exception carrying a message.
-/

namespace VoiceAssistant

/-- Does `hay` begin with `needle`?  Auxiliary for the substring test. -/
def listLeads : List Char → List Char → Bool
  | [], _ => true
  | _ :: _, [] => false
  | a :: as, b :: bs => a == b && listLeads as bs

/-- Python's `needle in hay` on strings: `needle` occurs contiguously in `hay`. -/
def containsSub (needle hay : List Char) : Bool :=
  match hay with
  | [] => needle.isEmpty
  | _ :: t => listLeads needle hay || containsSub needle t

/-- Python's `str.lower()` restricted to basic latin. -/
def strLower (s : List Char) : List Char :=
  s.map Char.toLower

/-- One value of the `PRIYANKA_LINKS` table in `backend/main.py`. -/
structure LinkData where
  url : String
  description : String
deriving DecidableEq

/-- The `github` value of the `PRIYANKA_LINKS` dictionary. -/
def githubData : LinkData :=
  ⟨"https://github.com/Priyanka2-ui",
   "Priyanka's GitHub profile — projects, code samples, and contributions."⟩

/-- The `email` value of the `PRIYANKA_LINKS` dictionary. -/
def emailData : LinkData :=
  ⟨"mailto:priyankashilwant321@gmail.com",
   "Priyanka's email — priyankashilwant321@gmail.com"⟩

/-- The `phone` value of the `PRIYANKA_LINKS` dictionary. -/
def phoneData : LinkData :=
  ⟨"tel:+917887509502",
   "Priyanka's phone number — +917887509502"⟩

/-- The `PRIYANKA_LINKS` dictionary of `backend/main.py`, in its
iteration order: `github`, `email`, `phone`. -/
def PRIYANKA_LINKS : List (String × LinkData) :=
  [("github", githubData), ("email", emailData), ("phone", phoneData)]

/-- The formatted reply string built for a matching entry. -/
def linkEntry (d : LinkData) : String :=
  d.url ++ " — " ++ d.description

/-- The per-key match condition of the loop in `get_priyanka_link_response`
(`q` is the already-lowercased query). -/
def linkMatches (key : String) (q : List Char) : Bool :=
  containsSub key.data q ||
    (key == "email" && (containsSub "email".data q || containsSub "contact".data q)) ||
    (key == "phone" && (containsSub "phone".data q || containsSub "number".data q ||
      containsSub "contact".data q))

/-- The `for key, data in PRIYANKA_LINKS.items()` loop: first matching key
wins, later keys untried. -/
def lookupLinks : List (String × LinkData) → List Char → Option String
  | [], _ => none
  | (key, d) :: rest, q =>
    if linkMatches key q then some (linkEntry d) else lookupLinks rest q

/-- `get_priyanka_link_response` of `backend/main.py`. -/
def get_priyanka_link_response (user_query : List Char) : Option String :=
  lookupLinks PRIYANKA_LINKS (strLower user_query)

/-- The specification of the lookup as stated in the spec: first matching
key of the table wins, later keys untried. -/
def firstMatchSpec (user_query : List Char) : Option String :=
  (PRIYANKA_LINKS.find? (fun p => linkMatches p.1 (strLower user_query))).map
    (fun p => linkEntry p.2)

/-!
Embedding of `backend/api.py`.

`VoiceAgentSession` wraps one external agent session.  Its Lean state keeps
the `session_started` flag of the Python object together with a ghost
counter `startCount` recording how many times the underlying SDK
`session.start(...)` call was actually issued (the Python object holds no
such counter; it instruments the claim "start is invoked at most once").
Exceptions raised by the SDK are `Except.error` values carrying `str(e)`.
-/

/-- One conversation item of the handle returned by `generate_reply`
(`getattr(item, 'type', None)` and `getattr(item, 'role', None)` may be
absent, hence `Option`). -/
structure ChatItem where
  type : Option String
  role : Option String
  text_content : Option String
deriving DecidableEq

/-- The oracle for the external SDK: the outcome of the underlying
`session.start(...)` call, and for each user input the conversation items
of the awaited `generate_reply` handle (or the exception it raises). -/
structure SdkOracle where
  startRes : Except String Unit
  gen : String → Except String (List ChatItem)

/-- The mutable state of a `VoiceAgentSession` wrapper object. -/
structure WrapperState where
  session_started : Bool
  startCount : Nat
deriving DecidableEq

/-- A freshly constructed wrapper (`VoiceAgentSession.__init__` sets
`self.session_started = False`; no SDK `start` has been issued). -/
def newWrapper : WrapperState :=
  ⟨false, 0⟩

/-- `VoiceAgentSession.start`: if the flag is unset, issue the underlying
`session.start(...)`; the flag is assigned only after that call returns
(an exception leaves it unset).  If the flag is set, do nothing. -/
def VoiceAgentSession.start (sdk : SdkOracle) (w : WrapperState) :
    WrapperState × Except String Unit :=
  if w.session_started then (w, .ok ())
  else
    match sdk.startRes with
    | .ok _ => (⟨true, w.startCount + 1⟩, .ok ())
    | .error e => (⟨w.session_started, w.startCount + 1⟩, .error e)

/-- The `assistant_messages` comprehension of `send_message`: items whose
`type` is `'message'` and `role` is `'assistant'`. -/
def assistantMessages (items : List ChatItem) : List ChatItem :=
  items.filter (fun it => it.type == some "message" && it.role == some "assistant")

/-- The tail of `send_message`: the last assistant message's
`text_content or ""`, or the placeholder when none exists. -/
def lastAssistantText (items : List ChatItem) : String :=
  match (assistantMessages items).getLast? with
  | some it => it.text_content.getD ""
  | none => "[No response]"

/-- `VoiceAgentSession.send_message`: run `start`, then `generate_reply`
and await it; either step may raise.  The returned state is the wrapper
object as the call leaves it (Python mutates it in place, so a later
exception does not roll the flag back). -/
def send_message (sdk : SdkOracle) (w : WrapperState) (message : String) :
    WrapperState × Except String String :=
  match VoiceAgentSession.start sdk w with
  | (w1, .error e) => (w1, .error e)
  | (w1, .ok _) =>
    match sdk.gen message with
    | .error e => (w1, .error e)
    | .ok items => (w1, .ok (lastAssistantText items))

/-- The in-memory `sessions` dict: identifiers to wrapper objects, in
insertion order. -/
abbrev Registry := List (String × WrapperState)

/-- The identifiers present in the registry. -/
def keysOf (r : Registry) : List String :=
  r.map Prod.fst

/-- `sessions.get(session_id)`. -/
def lookupSession (r : Registry) (k : String) : Option WrapperState :=
  (r.find? (fun p => p.1 == k)).map Prod.snd

/-- `sessions[session_id] = v`: overwrite an existing key in place,
append a new key. -/
def dictInsert (r : Registry) (k : String) (v : WrapperState) : Registry :=
  if r.any (fun p => p.1 == k) then
    r.map (fun p => if p.1 == k then (k, v) else p)
  else r ++ [(k, v)]

/-- `sessions.pop(session_id, None)`: drop the entry if present. -/
def dictPop (r : Registry) (k : String) : Registry :=
  r.filter (fun p => !(p.1 == k))

/-- The JSON bodies the façade can answer with. -/
inductive ApiResponse where
  | sessionStarted : String → ApiResponse
  | chatReply : String → ApiResponse
  | ended : ApiResponse
  | httpError : Nat → String → ApiResponse
deriving DecidableEq

/-- `POST /session/start`: draw a fresh identifier, construct the wrapper,
store it.  Construction may raise (`construct` is the outcome); the broad
`except` turns that into a 500 before any registry write happens. -/
def start_session (construct : Except String WrapperState) (r : Registry)
    (newId : String) : Registry × ApiResponse :=
  match construct with
  | .error e => (r, .httpError 500 ("Failed to start session: " ++ e))
  | .ok w => (dictInsert r newId w, .sessionStarted newId)

/-- `POST /session/{id}/chat`: look the session up, 404 when absent,
otherwise delegate to `send_message`, writing the mutated wrapper back
(in Python the stored object itself mutates); a raised `HTTPException`
is re-raised, any other exception becomes a 500 with the message. -/
def chat (sdk : SdkOracle) (r : Registry) (k : String) (message : String) :
    Registry × ApiResponse :=
  match lookupSession r k with
  | none => (r, .httpError 404 "Session not found")
  | some w =>
    match send_message sdk w message with
    | (w1, .error e) =>
      (dictInsert r k w1, .httpError 500 ("Failed to process message: " ++ e))
    | (w1, .ok text) => (dictInsert r k w1, .chatReply text)

/-- `POST /session/{id}/end`: pop the entry, call the no-op `close`,
answer `{status: "ended"}` whether or not the id was present. -/
def end_session (r : Registry) (k : String) : Registry × ApiResponse :=
  (dictPop r k, .ended)

/-- Repeated `chat` traffic against one wrapper: thread the wrapper state
through successive `send_message` calls. -/
def runMessages (sdk : SdkOracle) (w : WrapperState) : List String → WrapperState
  | [] => w
  | m :: ms => runMessages sdk (send_message sdk w m).1 ms

/-- A benign SDK oracle for concrete runs: start succeeds, replies are empty. -/
def okSdk : SdkOracle :=
  ⟨.ok (), fun _ => .ok []⟩

/-- An SDK oracle whose reply generation raises `"boom"`. -/
def genFailSdk : SdkOracle :=
  ⟨.ok (), fun _ => .error "boom"⟩

/-- An SDK oracle replying with a single assistant message "hello". -/
def helloSdk : SdkOracle :=
  ⟨.ok (), fun _ => .ok [⟨some "message", some "assistant", some "hello"⟩]⟩

/-! Lemmas about the contact-link lookup. -/

theorem charToLower_idem (c : Char) : c.toLower.toLower = c.toLower := by
  by_cases h : c.toNat ≥ 65 ∧ c.toNat ≤ 90
  · have h1 : c.toLower = Char.ofNat (c.toNat + 32) := by
      unfold Char.toLower
      rw [if_pos h]
    rw [h1]
    obtain ⟨ha, hb⟩ := h
    generalize c.toNat = n at ha hb
    interval_cases n <;> decide
  · have h1 : c.toLower = c := by
      unfold Char.toLower
      rw [if_neg h]
    rw [h1]
    exact h1

theorem strLower_idem (s : List Char) : strLower (strLower s) = strLower s := by
  unfold strLower
  rw [List.map_map]
  congr 1
  funext c
  exact charToLower_idem c

/-- The loop of `get_priyanka_link_response` returns the entry of the
first table key whose match condition holds. -/
theorem lookupLinks_eq_find (table : List (String × LinkData)) (q : List Char) :
    lookupLinks table q
      = (table.find? (fun p => linkMatches p.1 q)).map (fun p => linkEntry p.2) := by
  induction table with
  | nil => rfl
  | cons hd tl ih =>
    obtain ⟨key, d⟩ := hd
    cases h : linkMatches key q <;> simp [lookupLinks, List.find?, h, ih]

/-- Closed-form case split of the lookup on the five trigger substrings. -/
theorem lookup_cases (q : List Char) :
    get_priyanka_link_response q =
      (if containsSub "github".data (strLower q) then some (linkEntry githubData)
       else if containsSub "email".data (strLower q)
           || containsSub "contact".data (strLower q) then some (linkEntry emailData)
       else if containsSub "phone".data (strLower q)
           || containsSub "number".data (strLower q) then some (linkEntry phoneData)
       else none) := by
  cases hg : containsSub "github".data (strLower q) <;>
    cases he : containsSub "email".data (strLower q) <;>
      cases hc : containsSub "contact".data (strLower q) <;>
        cases hp : containsSub "phone".data (strLower q) <;>
          cases hn : containsSub "number".data (strLower q) <;>
            simp +decide [get_priyanka_link_response, PRIYANKA_LINKS, lookupLinks,
              linkMatches, hg, he, hc, hp, hn]

/-! Claims about the contact-link lookup. -/

/-- C1, counterexample: the claim as stated fails on the code.  The query
"contact github" contains "contact" yet does not yield the email entry
(the github key matches first), and "my number" contains none of the
configured keys `github`, `email`, `phone` yet yields the phone entry
rather than no match. -/
theorem C1_counterexample :
    get_priyanka_link_response "contact github".data = some (linkEntry githubData) ∧
      get_priyanka_link_response "contact github".data ≠ some (linkEntry emailData) ∧
      get_priyanka_link_response "my number".data = some (linkEntry phoneData) ∧
      get_priyanka_link_response "my number".data ≠ none := by
  refine ⟨by decide, by decide, by decide, by decide⟩

/-- C1, amended: for every query, the lookup returns the GitHub entry when
the lowered query contains "github"; otherwise the email entry when it
contains "email" or "contact"; otherwise the phone entry when it contains
"phone" or "number"; and no match (`none`) when it contains none of these
trigger substrings. -/
theorem C1_lookup_amended (q : List Char) :
    get_priyanka_link_response q =
      (if containsSub "github".data (strLower q) then some (linkEntry githubData)
       else if containsSub "email".data (strLower q)
           || containsSub "contact".data (strLower q) then some (linkEntry emailData)
       else if containsSub "phone".data (strLower q)
           || containsSub "number".data (strLower q) then some (linkEntry phoneData)
       else none) :=
  lookup_cases q

/-- C8: the lookup is case-insensitive — the result on any query equals
the result on its lowercased form — and first-match-wins: the returned
entry is the one for the first key of the table (iteration order github,
email, phone) whose match condition succeeds, later keys untried. -/
theorem C8_lookup_caseInsensitive_firstMatch (q : List Char) :
    get_priyanka_link_response q = get_priyanka_link_response (strLower q) ∧
      get_priyanka_link_response q = firstMatchSpec q := by
  constructor
  · unfold get_priyanka_link_response
    rw [strLower_idem]
  · exact lookupLinks_eq_find PRIYANKA_LINKS (strLower q)

/-- C9: a query whose lowered form contains "number" or "phone" and none
of "github", "email", "contact" returns the phone entry, although
"number" is not itself a key of the table. -/
theorem C9_number_query_returns_phone (q : List Char)
    (hpn : containsSub "phone".data (strLower q) = true
      ∨ containsSub "number".data (strLower q) = true)
    (hg : containsSub "github".data (strLower q) = false)
    (he : containsSub "email".data (strLower q) = false)
    (hc : containsSub "contact".data (strLower q) = false) :
    get_priyanka_link_response q = some (linkEntry phoneData) := by
  rw [lookup_cases q, if_neg, if_neg, if_pos]
  · rcases hpn with h | h <;> simp [h]
  · simp [he, hc]
  · simp [hg]

/-- C9, witness: the concrete query "my number". -/
theorem C9_witness :
    get_priyanka_link_response "my number".data = some (linkEntry phoneData) :=
  C9_number_query_returns_phone "my number".data (Or.inr (by decide))
    (by decide) (by decide) (by decide)

/-! Lemmas about the wrapper and the registry. -/

theorem send_message_of_started (sdk : SdkOracle) (w : WrapperState) (m : String)
    (h : w.session_started = true) : (send_message sdk w m).1 = w := by
  unfold send_message VoiceAgentSession.start
  rw [if_pos h]
  cases sdk.gen m <;> rfl

theorem runMessages_of_started (sdk : SdkOracle) (w : WrapperState) (ms : List String)
    (h : w.session_started = true) : runMessages sdk w ms = w := by
  induction ms with
  | nil => rfl
  | cons m ms ih => rw [runMessages, send_message_of_started sdk w m h]; exact ih

theorem send_message_of_fresh (sdk : SdkOracle) (w : WrapperState) (m : String)
    (hs : sdk.startRes = .ok ()) (h : w.session_started = false) :
    (send_message sdk w m).1 = ⟨true, w.startCount + 1⟩ := by
  unfold send_message VoiceAgentSession.start
  rw [if_neg (by simp [h]), hs]
  cases sdk.gen m <;> rfl

theorem keysOf_replace (r : Registry) (k : String) (v : WrapperState) :
    keysOf (r.map (fun p => if p.1 == k then (k, v) else p)) = keysOf r := by
  unfold keysOf
  rw [List.map_map]
  congr 1
  funext p
  by_cases h : p.1 = k <;> simp [Function.comp, h]

theorem keysOf_dictInsert_of_any (r : Registry) (k : String) (v : WrapperState)
    (h : r.any (fun p => p.1 == k) = true) :
    keysOf (dictInsert r k v) = keysOf r := by
  unfold dictInsert
  rw [if_pos h]
  exact keysOf_replace r k v

theorem mem_keysOf_dictInsert (r : Registry) (k : String) (v : WrapperState)
    (x : String) (hx : x ∈ keysOf r) : x ∈ keysOf (dictInsert r k v) := by
  unfold dictInsert
  split
  · rw [keysOf_replace]; exact hx
  · unfold keysOf at *
    rw [List.map_append]
    exact List.mem_append_left _ hx

theorem not_mem_keysOf_of_not_any (r : Registry) (k : String)
    (h : ¬ r.any (fun p => p.1 == k) = true) : k ∉ keysOf r := by
  intro hk
  apply h
  rw [List.any_eq_true]
  obtain ⟨p, hp, he⟩ := List.mem_map.mp hk
  exact ⟨p, hp, by simp [he]⟩

theorem nodup_keysOf_dictInsert (r : Registry) (k : String) (v : WrapperState)
    (h : (keysOf r).Nodup) : (keysOf (dictInsert r k v)).Nodup := by
  unfold dictInsert
  split
  · rw [keysOf_replace]; exact h
  · next hany =>
    have hk := not_mem_keysOf_of_not_any r k hany
    unfold keysOf at *
    rw [List.map_append]
    simp [List.nodup_append, h, hk]

theorem keysOf_dictPop (r : Registry) (k : String) :
    keysOf (dictPop r k) = (keysOf r).filter (fun x => !(x == k)) := by
  unfold dictPop keysOf
  induction r with
  | nil => rfl
  | cons p t ih => by_cases h : p.1 = k <;> simp [h, ih]

theorem mem_keysOf_dictPop (r : Registry) (k x : String)
    (hx : x ∈ keysOf r) (hne : x ≠ k) : x ∈ keysOf (dictPop r k) := by
  rw [keysOf_dictPop]
  exact List.mem_filter.mpr ⟨hx, by simp [hne]⟩

theorem not_mem_keysOf_dictPop (r : Registry) (k : String) :
    k ∉ keysOf (dictPop r k) := by
  rw [keysOf_dictPop]
  intro h
  have h2 := (List.mem_filter.mp h).2
  simp at h2

theorem nodup_keysOf_dictPop (r : Registry) (k : String)
    (h : (keysOf r).Nodup) : (keysOf (dictPop r k)).Nodup := by
  rw [keysOf_dictPop]
  exact h.filter _

theorem any_of_lookupSession (r : Registry) (k : String) (w : WrapperState)
    (h : lookupSession r k = some w) : r.any (fun p => p.1 == k) = true := by
  unfold lookupSession at h
  rw [List.any_eq_true]
  cases hf : r.find? (fun p => p.1 == k) with
  | none => rw [hf] at h; simp at h
  | some p =>
    have h1 : (fun q : String × WrapperState => q.1 == k) p = true :=
      List.find?_some (p := fun q : String × WrapperState => q.1 == k) hf
    exact ⟨p, List.mem_of_find?_eq_some hf, h1⟩

theorem chat_of_sendError (sdk : SdkOracle) (r : Registry) (k m : String)
    (w : WrapperState) (e : String)
    (hl : lookupSession r k = some w) (he : (send_message sdk w m).2 = .error e) :
    chat sdk r k m = (dictInsert r k (send_message sdk w m).1,
      .httpError 500 ("Failed to process message: " ++ e)) := by
  rcases hm : send_message sdk w m with ⟨w1, res⟩
  rw [hm] at he
  have he2 : res = .error e := he
  subst he2
  simp [chat, hl, hm]

theorem chat_registry_shape (sdk : SdkOracle) (r : Registry) (k m : String) :
    (chat sdk r k m).1 = r ∨ ∃ w1, (chat sdk r k m).1 = dictInsert r k w1 := by
  unfold chat
  cases hl : lookupSession r k with
  | none => left; rfl
  | some w =>
    right
    rcases hm : send_message sdk w m with ⟨w1, res⟩
    cases res <;> exact ⟨w1, by simp [hm]⟩

theorem chat_keysOf_of_present (sdk : SdkOracle) (r : Registry) (k m : String)
    (w : WrapperState) (hl : lookupSession r k = some w) :
    keysOf (chat sdk r k m).1 = keysOf r := by
  have hany := any_of_lookupSession r k w hl
  rcases chat_registry_shape sdk r k m with h | ⟨w1, h⟩
  · rw [h]
  · rw [h, keysOf_dictInsert_of_any r k w1 hany]

/-! Claims about the wrapper, the registry and the HTTP façade. -/

/-- C2: with a reachable SDK (the underlying start succeeds), the start
sequence is issued at most once per wrapper: over any sequence of
send_message calls on a fresh wrapper the underlying start runs at most
once, the `session_started` flag is true after the first call, and once
the flag is true further calls leave the wrapper unchanged (so they never
re-invoke the start sequence). -/
theorem C2_start_idempotent (sdk : SdkOracle) (hs : sdk.startRes = .ok ()) :
    (∀ ms, (runMessages sdk newWrapper ms).startCount ≤ 1) ∧
      (∀ m ms, (runMessages sdk newWrapper (m :: ms)).session_started = true) ∧
      (∀ w ms, w.session_started = true → runMessages sdk w ms = w) := by
  have hstep : ∀ m, (send_message sdk newWrapper m).1 = ⟨true, 1⟩ :=
    fun m => send_message_of_fresh sdk newWrapper m hs rfl
  refine ⟨?_, ?_, fun w ms h => runMessages_of_started sdk w ms h⟩
  · intro ms
    cases ms with
    | nil => exact Nat.zero_le 1
    | cons m ms =>
      rw [runMessages, hstep m, runMessages_of_started sdk ⟨true, 1⟩ ms rfl]
  · intro m ms
    rw [runMessages, hstep m, runMessages_of_started sdk ⟨true, 1⟩ ms rfl]

/-- C2, witness: two messages against a fresh wrapper under a benign SDK. -/
theorem C2_witness :
    (runMessages okSdk newWrapper ["hi", "again"]).startCount ≤ 1 ∧
      (runMessages okSdk newWrapper ["hi"]).session_started = true ∧
      runMessages okSdk (⟨true, 1⟩ : WrapperState) ["more"] = ⟨true, 1⟩ :=
  ⟨(C2_start_idempotent okSdk rfl).1 ["hi", "again"],
   (C2_start_idempotent okSdk rfl).2.1 "hi" [],
   (C2_start_idempotent okSdk rfl).2.2 ⟨true, 1⟩ ["more"] rfl⟩

/-- C3: `end_session` is idempotent — both calls answer `{status: "ended"}`
for every identifier, present or not, and the second call leaves the
registry unchanged. -/
theorem C3_end_idempotent (r : Registry) (k : String) :
    (end_session r k).2 = .ended ∧
      (end_session (end_session r k).1 k).2 = .ended ∧
      (end_session (end_session r k).1 k).1 = (end_session r k).1 := by
  refine ⟨rfl, rfl, ?_⟩
  show dictPop (dictPop r k) k = dictPop r k
  unfold dictPop
  rw [List.filter_filter]
  simp

/-- C4: `chat` against an identifier absent from the registry answers
HTTP 404 "Session not found" and returns the registry unchanged. -/
theorem C4_chat_unknown_404 (sdk : SdkOracle) (r : Registry) (k m : String)
    (h : lookupSession r k = none) :
    chat sdk r k m = (r, .httpError 404 "Session not found") := by
  unfold chat
  rw [h]

/-- C4, witness: an empty registry. -/
theorem C4_witness :
    chat okSdk [] "unknown-id" "hi" = ([], .httpError 404 "Session not found") :=
  C4_chat_unknown_404 okSdk [] "unknown-id" "hi" rfl

/-- C5: when the SDK start succeeds and `generate_reply` yields `items`,
`send_message` leaves the wrapper started and returns
`lastAssistantText items`, which is the last assistant-authored message's
text (its `text_content or ""`) or the placeholder "[No response]" when no
assistant-authored message exists. -/
theorem C5_send_message_spec (sdk : SdkOracle) (w : WrapperState) (m : String)
    (items : List ChatItem) (hs : sdk.startRes = .ok ()) (hg : sdk.gen m = .ok items) :
    (send_message sdk w m).1.session_started = true ∧
      (send_message sdk w m).2 = .ok (lastAssistantText items) ∧
      (assistantMessages items = [] → lastAssistantText items = "[No response]") ∧
      (∀ it, (assistantMessages items).getLast? = some it →
        lastAssistantText items = it.text_content.getD "") := by
  refine ⟨?_, ?_, ?_, ?_⟩
  · cases h : w.session_started
    · rw [send_message_of_fresh sdk w m hs h]
    · rw [send_message_of_started sdk w m h]
      exact h
  · unfold send_message VoiceAgentSession.start
    rw [hs]
    cases hw : w.session_started <;> simp [hw, hg]
  · intro h
    unfold lastAssistantText
    rw [h]
    rfl
  · intro it h
    unfold lastAssistantText
    rw [h]

/-- C5, witness: a fresh wrapper and a single assistant reply "hello". -/
theorem C5_witness :
    (send_message helloSdk newWrapper "hi").1.session_started = true ∧
      (send_message helloSdk newWrapper "hi").2
        = .ok (lastAssistantText [⟨some "message", some "assistant", some "hello"⟩]) ∧
      (assistantMessages [⟨some "message", some "assistant", some "hello"⟩] = [] →
        lastAssistantText [⟨some "message", some "assistant", some "hello"⟩]
          = "[No response]") ∧
      (∀ it, (assistantMessages
          [⟨some "message", some "assistant", some "hello"⟩]).getLast? = some it →
        lastAssistantText [⟨some "message", some "assistant", some "hello"⟩]
          = it.text_content.getD "") :=
  C5_send_message_spec helloSdk newWrapper "hi"
    [⟨some "message", some "assistant", some "hello"⟩] rfl rfl

/-- C6: on a registry with pairwise-distinct identifiers, every operation
preserves distinctness (each present identifier maps to exactly one
wrapper); start_session and chat never drop an identifier, and end_session
drops exactly the identifier it is given. -/
theorem C6_registry_invariant (sdk : SdkOracle) (c : Except String WrapperState)
    (r : Registry) (nid k m : String) (hnd : (keysOf r).Nodup) :
    ((keysOf (start_session c r nid).1).Nodup ∧
      (keysOf (chat sdk r k m).1).Nodup ∧
      (keysOf (end_session r k).1).Nodup) ∧
      (∀ x, x ∈ keysOf r →
        x ∈ keysOf (start_session c r nid).1 ∧
          x ∈ keysOf (chat sdk r k m).1 ∧
          (x ≠ k → x ∈ keysOf (end_session r k).1)) ∧
      k ∉ keysOf (end_session r k).1 := by
  have hstart : (start_session c r nid).1 = r
      ∨ ∃ w, (start_session c r nid).1 = dictInsert r nid w := by
    cases c with
    | error e => left; rfl
    | ok w => right; exact ⟨w, rfl⟩
  have hchat := chat_registry_shape sdk r k m
  refine ⟨⟨?_, ?_, nodup_keysOf_dictPop r k hnd⟩, ?_, not_mem_keysOf_dictPop r k⟩
  · rcases hstart with h | ⟨w, h⟩
    · rw [h]; exact hnd
    · rw [h]; exact nodup_keysOf_dictInsert r nid w hnd
  · rcases hchat with h | ⟨w1, h⟩
    · rw [h]; exact hnd
    · rw [h]; exact nodup_keysOf_dictInsert r k w1 hnd
  · intro x hx
    refine ⟨?_, ?_, fun hne => mem_keysOf_dictPop r k x hx hne⟩
    · rcases hstart with h | ⟨w, h⟩
      · rw [h]; exact hx
      · rw [h]; exact mem_keysOf_dictInsert r nid w x hx
    · rcases hchat with h | ⟨w1, h⟩
      · rw [h]; exact hx
      · rw [h]; exact mem_keysOf_dictInsert r k w1 x hx

/-- C6, witness: a one-entry registry under each operation. -/
theorem C6_witness :
    (keysOf (start_session (.ok newWrapper) [("a", newWrapper)] "b").1).Nodup ∧
      "a" ∈ keysOf (chat okSdk [("a", newWrapper)] "a" "hi").1 ∧
      "a" ∉ keysOf (end_session [("a", newWrapper)] "a").1 :=
  ⟨((C6_registry_invariant okSdk (.ok newWrapper) [("a", newWrapper)] "b" "a" "hi"
      (by decide)).1).1,
   ((C6_registry_invariant okSdk (.ok newWrapper) [("a", newWrapper)] "b" "a" "hi"
      (by decide)).2.1 "a" (by decide)).2.1,
   (C6_registry_invariant okSdk (.ok newWrapper) [("a", newWrapper)] "b" "a" "hi"
      (by decide)).2.2⟩

/-- C7: every unexpected (non-404) exception is converted at the endpoint
boundary into a 500 response embedding the exception's message — wrapper
construction failure in start_session, and any send_message failure in
chat — while end_session (whose close is a no-op) always answers
`{status: "ended"}`; failed requests leave the set of registered
identifiers unchanged (no partial mutation of the registry). -/
theorem C7_error_conversion (sdk : SdkOracle) (r : Registry) (k m nid e : String) :
    start_session (.error e) r nid
        = (r, .httpError 500 ("Failed to start session: " ++ e)) ∧
      (∀ w, lookupSession r k = some w → (send_message sdk w m).2 = .error e →
        (chat sdk r k m).2 = .httpError 500 ("Failed to process message: " ++ e) ∧
          keysOf (chat sdk r k m).1 = keysOf r) ∧
      (end_session r k).2 = .ended := by
  refine ⟨rfl, ?_, rfl⟩
  intro w hl he
  constructor
  · rw [chat_of_sendError sdk r k m w e hl he]
  · exact chat_keysOf_of_present sdk r k m w hl

/-- C7, witness: a failing construction and a failing reply generation. -/
theorem C7_witness :
    start_session (.error "boom") [] "id1"
        = ([], .httpError 500 ("Failed to start session: " ++ "boom")) ∧
      (chat genFailSdk [("s", newWrapper)] "s" "hi").2
        = .httpError 500 ("Failed to process message: " ++ "boom") ∧
      keysOf (chat genFailSdk [("s", newWrapper)] "s" "hi").1
        = keysOf [("s", newWrapper)] :=
  ⟨(C7_error_conversion genFailSdk [] "s" "hi" "id1" "boom").1,
   ((C7_error_conversion genFailSdk [("s", newWrapper)] "s" "hi" "id1" "boom").2.1
      newWrapper rfl rfl).1,
   ((C7_error_conversion genFailSdk [("s", newWrapper)] "s" "hi" "id1" "boom").2.1
      newWrapper rfl rfl).2⟩

/-- C10: start_session is atomic — when wrapper construction raises, the
endpoint answers 500 with the message attached, the registry is exactly
unchanged, and the drawn identifier is not present in it (when it was not
present before). -/
theorem C10_start_session_atomic (r : Registry) (nid e : String) :
    (start_session (.error e) r nid).1 = r ∧
      (start_session (.error e) r nid).2
        = .httpError 500 ("Failed to start session: " ++ e) ∧
      (nid ∉ keysOf r → nid ∉ keysOf (start_session (.error e) r nid).1) :=
  ⟨rfl, rfl, fun h => h⟩

/-- C10, witness: a failing construction over a one-entry registry. -/
theorem C10_witness :
    "fresh" ∉ keysOf (start_session (.error "boom") [("a", newWrapper)] "fresh").1 :=
  (C10_start_session_atomic [("a", newWrapper)] "fresh" "boom").2.2 (by decide)

end VoiceAssistant
